import Mathlib

/-!
Shallow embedding of the vehicle-insurance training pipeline
(`src/components/*.py`, `src/pipline/training_pipeline.py`,
`src/data_access/proj1_data.py`).

A pandas `DataFrame` is modelled column-major: a list of named columns, each
column a list of cell values.  Python exceptions are modelled by `PyErr`;
`MyException(e, sys)` re-raising wraps the inner error with `PyErr.wrapped`.
External collaborators (MongoDB, S3, sklearn estimators, SMOTEENN, the seeded
shuffler of `train_test_split`) are passed in as explicit oracle parameters,
so every stage function is a pure function of its inputs.
-/

namespace VIP

/-- A cell of a dataframe: a string, a rational number (covering ints and
floats), a boolean (pandas `bool` dtype, produced by `get_dummies`), or NaN. -/
inductive Value where
  | str (s : String)
  | num (q : ℚ)
  | boolv (b : Bool)
  | nan
deriving DecidableEq, Repr

/-- A named column. -/
abbrev Col := String × List Value

/-- A dataframe, column-major, columns in display order. -/
abbrev Frame := List Col

def columns (f : Frame) : List String := f.map Prod.fst

def hasCol (f : Frame) (n : String) : Bool := f.any (fun c => c.1 == n)

def getCol (f : Frame) (n : String) : Option (List Value) :=
  (f.find? (fun c => c.1 == n)).map Prod.snd

def dropCol (f : Frame) (n : String) : Frame := f.filter (fun c => c.1 != n)

/-- `df[n] = vs`: replace the values of an existing column in place. -/
def setCol (f : Frame) (n : String) (vs : List Value) : Frame :=
  f.map (fun c => (c.1, if c.1 == n then vs else c.2))

/-- Apply a partial cell conversion to every cell of a column, failing when
any single cell fails (e.g. `.astype(int)` over NaN). -/
def mapMOpt {α β : Type} (g : α → Option β) : List α → Option (List β)
  | [] => some []
  | a :: as =>
      match g a with
      | none => none
      | some b =>
          match mapMOpt g as with
          | none => none
          | some bs => some (b :: bs)

def nrows (f : Frame) : Nat :=
  match f with
  | [] => 0
  | c :: _ => c.2.length

/-- Python exceptions as observed by the pipeline.  `wrapped` is one layer of
`raise MyException(e, sys)`; `raisedMsg` is a `MyException`/`Exception` raised
directly with a message. -/
inductive PyErr where
  | keyError (name : String)
  | valueError (msg : String)
  | typeError (msg : String)
  | attributeError (name : String)
  | unboundLocalError (name : String)
  | raisedMsg (msg : String)
  | wrapped (inner : PyErr)
deriving DecidableEq, Repr

def exceptOk {α : Type} : Except PyErr α → Bool
  | .ok _ => true
  | .error _ => false

instance {ε α : Type} [DecidableEq ε] [DecidableEq α] : DecidableEq (Except ε α) := fun a b =>
  match a, b with
  | .ok x, .ok y => if h : x = y then .isTrue (by rw [h]) else .isFalse (by simp [h])
  | .error x, .error y => if h : x = y then .isTrue (by rw [h]) else .isFalse (by simp [h])
  | .ok _, .error _ => .isFalse (by simp)
  | .error _, .ok _ => .isFalse (by simp)

/-! ### sklearn metrics (`accuracy_score`, `f1_score`, `precision_score`,
`recall_score`), embedded over rational-valued label lists. -/

/-- Per-label F1: harmonic mean of precision and recall for one positive
label, with sklearn's zero-division convention (`0` when a denominator is 0). -/
def f1ForLabel (l : ℚ) (y yhat : List ℚ) : ℚ :=
  let pairs := y.zip yhat
  let tp : ℚ := ((pairs.filter (fun p => p.1 == l && p.2 == l)).length : ℚ)
  let fp : ℚ := ((pairs.filter (fun p => p.1 != l && p.2 == l)).length : ℚ)
  let fnc : ℚ := ((pairs.filter (fun p => p.1 == l && p.2 != l)).length : ℚ)
  let prec := if tp + fp == 0 then 0 else tp / (tp + fp)
  let recl := if tp + fnc == 0 then 0 else tp / (tp + fnc)
  if prec + recl == 0 then 0 else 2 * prec * recl / (prec + recl)

def precForLabel (l : ℚ) (y yhat : List ℚ) : ℚ :=
  let pairs := y.zip yhat
  let tp : ℚ := ((pairs.filter (fun p => p.1 == l && p.2 == l)).length : ℚ)
  let fp : ℚ := ((pairs.filter (fun p => p.1 != l && p.2 == l)).length : ℚ)
  if tp + fp == 0 then 0 else tp / (tp + fp)

def reclForLabel (l : ℚ) (y yhat : List ℚ) : ℚ :=
  let pairs := y.zip yhat
  let tp : ℚ := ((pairs.filter (fun p => p.1 == l && p.2 == l)).length : ℚ)
  let fnc : ℚ := ((pairs.filter (fun p => p.1 == l && p.2 != l)).length : ℚ)
  if tp + fnc == 0 then 0 else tp / (tp + fnc)

/-- `f1_score(y, yhat)` with the default `average='binary'` and positive
label `1` — what `model_evaluation.py` line 127 computes. -/
def f1_binary (y yhat : List ℚ) : ℚ := f1ForLabel 1 y yhat

def ratLabels (y yhat : List ℚ) : List ℚ := (y ++ yhat).dedup

def countEq (l : List ℚ) (a : ℚ) : ℕ := (l.filter (fun x => x == a)).length

/-- `f1_score(y, yhat, average='weighted')`: per-label F1 weighted by the
label's support in `y`. -/
def f1_weighted (y yhat : List ℚ) : ℚ :=
  if y.length == 0 then 0 else
    ((ratLabels y yhat).map (fun l => (countEq y l : ℚ) * f1ForLabel l y yhat)).sum
      / (y.length : ℚ)

def precision_weighted (y yhat : List ℚ) : ℚ :=
  if y.length == 0 then 0 else
    ((ratLabels y yhat).map (fun l => (countEq y l : ℚ) * precForLabel l y yhat)).sum
      / (y.length : ℚ)

def recall_weighted (y yhat : List ℚ) : ℚ :=
  if y.length == 0 then 0 else
    ((ratLabels y yhat).map (fun l => (countEq y l : ℚ) * reclForLabel l y yhat)).sum
      / (y.length : ℚ)

def accuracy_score (y yhat : List ℚ) : ℚ :=
  if y.length == 0 then 0 else
    (((y.zip yhat).filter (fun p => p.1 == p.2)).length : ℚ) / (y.length : ℚ)

/-! ### Data validation (`src/components/data_validation.py`) -/

/-- The schema configuration dictionary loaded from `schema.yaml`
(`main_utils.read_yaml`), restricted to the keys validation reads. -/
structure SchemaConfig where
  columnsList : List String
  numerical_column : List String
  categorical_column : List String
deriving DecidableEq, Repr

structure DataValidationArtifact where
  validation_status : Bool
  message : String
  validation_report_file_path : String
deriving DecidableEq, Repr

/-- Attribute lookup of `_schema_config` on a `DataValidation` object.
`DataValidation.__init__` (line 22) assigns `self.schema_config`; no statement
in the class ever assigns `self._schema_config`, so the lookup finds nothing. -/
def dv_underscore_schema_config : Option SchemaConfig := none

/-- `DataValidation.validate_number_of_columns` (lines 27-36): compares the
dataframe's column count with `len(self._schema_config["columns"])`.  The
attribute read raises `AttributeError`, wrapped by the method's handler. -/
def validate_number_of_columns (df : Frame) : Except PyErr Bool :=
  match dv_underscore_schema_config with
  | none => .error (.wrapped (.attributeError "_schema_config"))
  | some sc => .ok ((columns df).length == sc.columnsList.length)

/-- `DataValidation.is_column_exist` (lines 38-69): collects the schema's
numerical and categorical columns missing from the dataframe (the collected
names are only logged, not returned) and returns `False` iff any is missing. -/
def is_column_exist (sc : SchemaConfig) (df : Frame) : Bool :=
  let missing_numerical_columns := sc.numerical_column.filter (fun c => !(hasCol df c))
  let missing_categorical_columns := sc.categorical_column.filter (fun c => !(hasCol df c))
  if missing_categorical_columns.length > 0 || missing_numerical_columns.length > 0
  then false else true

/-- Python local-variable semantics for the accumulator in
`initiate_data_validation`: the function initializes `err = ""` (line 84) but
every append targets `validation_error_msg`, which is never bound, so an
augmented assignment on it raises `UnboundLocalError`. -/
def appendUnbound (acc : Option String) (clause : String) : Except PyErr (Option String) :=
  match acc with
  | none => .error (.unboundLocalError "validation_error_msg")
  | some s => .ok (some (s ++ clause))

/-- `DataValidation.initiate_data_validation` (lines 79-138), with Python's
local-variable semantics made explicit: `validation_error_msg` starts unbound
(`none`), every `+=` on it and the final `len(validation_error_msg)` go through
`appendUnbound`/the final match and raise `UnboundLocalError` when unbound. -/
def initiate_data_validation (sc : SchemaConfig) (reportPath : String)
    (train_df test_df : Frame) : Except PyErr DataValidationArtifact :=
  let validation_error_msg : Option String := none
  match validate_number_of_columns train_df with
  | .error e => .error (.wrapped e)
  | .ok s1 =>
    match (if !s1 then appendUnbound validation_error_msg "Columns are missing in training dataframe. "
           else .ok validation_error_msg) with
    | .error e => .error (.wrapped e)
    | .ok m1 =>
      match validate_number_of_columns test_df with
      | .error e => .error (.wrapped e)
      | .ok s2 =>
        match (if !s2 then appendUnbound m1 "Columns are missing in test dataframe. "
               else .ok m1) with
        | .error e => .error (.wrapped e)
        | .ok m2 =>
          let s3 := is_column_exist sc train_df
          match (if !s3 then appendUnbound m2 "Columns are missing in training dataframe. "
                 else .ok m2) with
          | .error e => .error (.wrapped e)
          | .ok m3 =>
            let s4 := is_column_exist sc test_df
            match (if !s4 then appendUnbound m3 "Columns are missing in test dataframe."
                   else .ok m3) with
            | .error e => .error (.wrapped e)
            | .ok m4 =>
              match m4 with
              | none => .error (.wrapped (.unboundLocalError "validation_error_msg"))
              | some msg =>
                  .ok ⟨msg.length == 0, msg, reportPath⟩

/-! ### Feature-engineering steps
(`src/components/data_transformation.py` lines 62-103 and their duplicates in
`src/components/model_evaluation.py` lines 60-89). -/

/-- `df['Gender'].map({'Female': 0, 'Male': 1})`: unmatched cells become NaN. -/
def map_gender_val : Value → Value
  | .str "Female" => .num 0
  | .str "Male" => .num 1
  | _ => .nan

/-- `.astype(int)` on one cell: numeric truncates toward zero, booleans become
0/1, strings and NaN raise. -/
def valToInt : Value → Option Value
  | .num q => some (.num ((q.num / (q.den : ℤ) : ℤ) : ℚ))
  | .boolv b => some (.num (if b then 1 else 0))
  | .str _ => none
  | .nan => none

def isStrVal : Value → Bool
  | .str _ => true
  | _ => false

/-- A pandas column has `object` dtype (and is one-hot encoded by
`get_dummies`) when it holds string cells. -/
def isObjectCol (vs : List Value) : Bool := vs.any isStrVal

def strLevels (vs : List Value) : List String :=
  vs.filterMap (fun v => match v with | .str s => some s | _ => none)

def charListLt : List Char → List Char → Bool
  | [], [] => false
  | [], _ :: _ => true
  | _ :: _, [] => false
  | a :: as, b :: bs =>
      if a.toNat < b.toNat then true
      else if b.toNat < a.toNat then false
      else charListLt as bs

def strLtB (a b : String) : Bool := charListLt a.data b.data

def insertSorted (s : String) : List String → List String
  | [] => [s]
  | t :: ts => if strLtB s t then s :: t :: ts else t :: insertSorted s ts

/-- Lexicographic sort, matching pandas' sorted category order for an
object-dtype column. -/
def sortStrings (l : List String) : List String := l.foldr insertSorted []

/-- One-hot columns for one object column: sorted unique levels, first level
dropped (`drop_first=True`), one boolean indicator column per kept level named
`col_level`. -/
def dummiesForCol (name : String) (vs : List Value) : List Col :=
  ((sortStrings (strLevels vs).dedup).drop 1).map
    (fun lvl => (name ++ "_" ++ lvl, vs.map (fun v => Value.boolv (v == Value.str lvl))))

/-- `pd.get_dummies(df, drop_first=True)`: non-object columns first in their
original order, then the dummy blocks of the object columns in order.
Identical bodies: `DataTransformation._create_dummy_columns` and
`ModelEvaluation._create_dummy_columns`. -/
def create_dummy_columns (df : Frame) : Frame :=
  df.filter (fun c => !(isObjectCol c.2))
    ++ (df.filter (fun c => isObjectCol c.2)).flatMap (fun c => dummiesForCol c.1 c.2)

def renameName (n : String) : String :=
  if n == "Vehicle_Age_< 1 Year" then "Vehicle_Age_lt_1_Year"
  else if n == "Vehicle_Age_> 2 Years" then "Vehicle_Age_gt_2_Years"
  else n

/-- `df[col] = df[col].astype(int)` guarded by `if col in df.columns`. -/
def astypeIntIfPresent (df : Frame) (n : String) : Except PyErr Frame :=
  if hasCol df n then
    match getCol df n with
    | none => .ok df
    | some vs =>
        match mapMOpt valToInt vs with
        | none => .error (.valueError n)
        | some ivs => .ok (setCol df n ivs)
  else .ok df

/-- `_rename_columns`: rename the two generated one-hot names to sanitized
names, then coerce the three known boolean dummy columns to int when present.
Identical bodies in `data_transformation.py` and `model_evaluation.py`. -/
def rename_columns (df : Frame) : Except PyErr Frame := do
  let df1 := df.map (fun c => (renameName c.1, c.2))
  let df2 ← astypeIntIfPresent df1 "Vehicle_Age_lt_1_Year"
  let df3 ← astypeIntIfPresent df2 "Vehicle_Age_gt_2_Years"
  astypeIntIfPresent df3 "Vehicle_Damage_Yes"

namespace DT

/-- `DataTransformation._map_gender_column` (lines 62-69): guarded by
`if 'Gender' in df.columns`; maps the two levels to 0/1, `astype(int)` raises
on NaN from unmatched cells. -/
def map_gender_column (df : Frame) : Except PyErr Frame :=
  if hasCol df "Gender" then
    match getCol df "Gender" with
    | none => .ok df
    | some vs =>
        match mapMOpt valToInt (vs.map map_gender_val) with
        | none => .error (.valueError "cannot convert non-finite values to integer")
        | some ivs => .ok (setCol df "Gender" ivs)
  else .ok df

/-- `DataTransformation._drop_id_column` (lines 95-103): drops the column
named by the schema's `drop_columns` entry, when present. -/
def drop_id_column (drop_columns : String) (df : Frame) : Frame :=
  if hasCol df drop_columns then dropCol df drop_columns else df

/-- Steps 1-4 of the transformation stage as applied to one feature frame
(the loop of `initiate_data_transformation` lines 121-126). -/
def transformSteps (drop_columns : String) (df : Frame) : Except PyErr Frame :=
  match map_gender_column df with
  | .error e => .error e
  | .ok d1 => rename_columns (create_dummy_columns (drop_id_column drop_columns d1))

end DT

namespace ME

/-- `ModelEvaluation._map_gender_column` (lines 60-64): unguarded — reading
`df['Gender']` raises `KeyError` when the column is absent. -/
def map_gender_column (df : Frame) : Except PyErr Frame :=
  match getCol df "Gender" with
  | none => .error (.keyError "Gender")
  | some vs =>
      match mapMOpt valToInt (vs.map map_gender_val) with
      | none => .error (.valueError "cannot convert non-finite values to integer")
      | some ivs => .ok (setCol df "Gender" ivs)

/-- `ModelEvaluation._drop_id_column` (lines 84-89): despite its docstring it
drops the hardcoded `"_id"` column, not the schema's configured drop column. -/
def drop_id_column (df : Frame) : Frame :=
  if hasCol df "_id" then dropCol df "_id" else df

/-- The evaluation stage's feature re-derivation, steps 1-4
(`evaluate_model` lines 102-105). -/
def evalSteps (df : Frame) : Except PyErr Frame :=
  match map_gender_column df with
  | .error e => .error e
  | .ok d1 => rename_columns (create_dummy_columns (drop_id_column d1))

end ME

/-! ### Scaling pipeline (`DataTransformation.get_data_transformer_object`,
lines 41-60): a `ColumnTransformer` with a `StandardScaler` on the schema's
`num_features`, a `MinMaxScaler` on `mm_columns`, and `remainder='passthrough'`. -/

/-- The fitted state of the preprocessor: per `num_features` column the fitted
`(mean_, var_)` of the `StandardScaler` (its `scale_` is `sqrt var_`, a
function of `var_`), per `mm_columns` column the fitted
`(data_min_, data_max_)` of the `MinMaxScaler`. -/
structure ScalerParams where
  stdParams : List (String × ℚ × ℚ)
  mmParams : List (String × ℚ × ℚ)
deriving DecidableEq, Repr

/-- Read a column as floats; strings/NaN make the numeric conversion fail. -/
def colAsRat (vs : List Value) : Option (List ℚ) :=
  mapMOpt (fun v => match v with
    | .num q => some q
    | .boolv b => some (if b then (1 : ℚ) else 0)
    | _ => none) vs

def meanOf (l : List ℚ) : ℚ := l.sum / (l.length : ℚ)

def varOf (l : List ℚ) : ℚ := ((l.map (fun x => (x - meanOf l) ^ 2)).sum) / (l.length : ℚ)

def minOf (l : List ℚ) : ℚ :=
  match l with
  | [] => 0
  | x :: xs => xs.foldl min x

def maxOf (l : List ℚ) : ℚ :=
  match l with
  | [] => 0
  | x :: xs => xs.foldl max x

/-- `preprocessor.fit(df)`: computes the per-column statistics from `df` alone;
raises when a configured column is absent or non-numeric. -/
def fitScaler (num_features mm_columns : List String) (df : Frame) :
    Except PyErr ScalerParams := do
  let sp ← num_features.mapM (fun n =>
    match getCol df n with
    | none => Except.error (PyErr.keyError n)
    | some vs =>
        match colAsRat vs with
        | none => Except.error (PyErr.valueError n)
        | some qs => Except.ok (n, meanOf qs, varOf qs))
  let mp ← mm_columns.mapM (fun n =>
    match getCol df n with
    | none => Except.error (PyErr.keyError n)
    | some vs =>
        match colAsRat vs with
        | none => Except.error (PyErr.valueError n)
        | some qs => Except.ok (n, minOf qs, maxOf qs))
  .ok ⟨sp, mp⟩

/-- A numeric array, column-major; the last column is the target once
concatenated (`np.c_`). -/
abbrev Matrix := List (List ℚ)

/-- `preprocessor.transform(df)` with fitted parameters `p`: standard-scaled
block, then min-max block, then the passthrough remainder in original order.
`sqrtFn` stands for the square root used by `StandardScaler.scale_`. -/
def transformWith (sqrtFn : ℚ → ℚ) (p : ScalerParams) (df : Frame) :
    Except PyErr Matrix := do
  let stdCols ← p.stdParams.mapM (fun t =>
    match getCol df t.1 with
    | none => Except.error (PyErr.keyError t.1)
    | some vs =>
        match colAsRat vs with
        | none => Except.error (PyErr.valueError t.1)
        | some qs => Except.ok (qs.map (fun x => (x - t.2.1) / sqrtFn t.2.2)))
  let mmCols ← p.mmParams.mapM (fun t =>
    match getCol df t.1 with
    | none => Except.error (PyErr.keyError t.1)
    | some vs =>
        match colAsRat vs with
        | none => Except.error (PyErr.valueError t.1)
        | some qs => Except.ok (qs.map (fun x => (x - t.2.1) / (t.2.2 - t.2.1))))
  let fitted := p.stdParams.map (fun t => t.1) ++ p.mmParams.map (fun t => t.1)
  let rest ← (df.filter (fun c => !(fitted.contains c.1))).mapM (fun c =>
    match colAsRat c.2 with
    | none => Except.error (PyErr.typeError c.1)
    | some qs => Except.ok qs)
  .ok (stdCols ++ mmCols ++ rest)

/-! ### Transformation stage (`DataTransformation.initiate_data_transformation`,
lines 105-155). -/

/-- The schema keys the transformation stage reads, plus the target constant. -/
structure SchemaCfg where
  target_column : String
  drop_columns : String
  num_features : List String
  mm_columns : List String

/-- `df.drop(columns=[TARGET])` and `df[TARGET]`, converting the target series
to floats (`np.c_` concatenation needs numeric entries). -/
def dropTargetAndGet (target : String) (df : Frame) : Except PyErr (Frame × List ℚ) :=
  match getCol df target with
  | none => .error (.keyError target)
  | some vs =>
      match colAsRat vs with
      | none => .error (.typeError target)
      | some ys => .ok (dropCol df target, ys)

/-- The persisted outputs of the transformation stage: the fitted transformer
(`save_object`) and the two resampled arrays (`save_numpy_array_data`),
features with the target appended as last column. -/
structure DataTransformationOutput where
  params : ScalerParams
  train_arr : Matrix
  test_arr : Matrix
deriving DecidableEq, Repr

/-- A class-rebalancing resampler (`SMOTEENN(sampling_strategy="minority")
.fit_resample`), treated as an external oracle on (features, target). -/
abbrev Resampler := Matrix → List ℚ → Matrix × List ℚ

namespace DT

/-- `DataTransformation.initiate_data_transformation` (lines 105-155).  First
the gate: when `validation_status` is false it raises
`MyException(artifact.message)`, re-wrapped by the method's handler.  Then the
four per-frame steps are applied to train and test alternately (the loop of
lines 121-126), the scaler is fitted on the derived train frame only
(`fit_transform`, line 130) and applied to the derived test frame
(`transform`, line 131), both arrays are resampled independently, and the
target column is concatenated last (`np.c_`). -/
def initiate_data_transformation (cfg : SchemaCfg) (sqrtFn : ℚ → ℚ)
    (resample : Resampler) (va : DataValidationArtifact)
    (train_df test_df : Frame) : Except PyErr DataTransformationOutput :=
  if !va.validation_status then .error (.wrapped (.raisedMsg va.message)) else
  match dropTargetAndGet cfg.target_column train_df with
  | .error e => .error (.wrapped e)
  | .ok ptr =>
  match dropTargetAndGet cfg.target_column test_df with
  | .error e => .error (.wrapped e)
  | .ok pte =>
  match map_gender_column ptr.1 with
  | .error e => .error (.wrapped e)
  | .ok t1 =>
  match map_gender_column pte.1 with
  | .error e => .error (.wrapped e)
  | .ok s1 =>
  let t2 := drop_id_column cfg.drop_columns t1
  let s2 := drop_id_column cfg.drop_columns s1
  let t3 := create_dummy_columns t2
  let s3 := create_dummy_columns s2
  match rename_columns t3 with
  | .error e => .error (.wrapped e)
  | .ok t4 =>
  match rename_columns s3 with
  | .error e => .error (.wrapped e)
  | .ok s4 =>
  match fitScaler cfg.num_features cfg.mm_columns t4 with
  | .error e => .error (.wrapped e)
  | .ok params =>
  match transformWith sqrtFn params t4 with
  | .error e => .error (.wrapped e)
  | .ok tra =>
  match transformWith sqrtFn params s4 with
  | .error e => .error (.wrapped e)
  | .ok tea =>
  let rtr := resample tra ptr.2
  let rte := resample tea pte.2
  .ok ⟨params, rtr.1 ++ [rtr.2], rte.1 ++ [rte.2]⟩

/-- The fitted-transformer computation of the transformation stage restricted
to its train-side inputs: target split, steps 1-4, then `fit`. -/
def trainFit (cfg : SchemaCfg) (train_df : Frame) : Except PyErr ScalerParams :=
  match dropTargetAndGet cfg.target_column train_df with
  | .error e => .error e
  | .ok ptr =>
  match map_gender_column ptr.1 with
  | .error e => .error e
  | .ok t1 =>
  match rename_columns (create_dummy_columns (drop_id_column cfg.drop_columns t1)) with
  | .error e => .error e
  | .ok t4 => fitScaler cfg.num_features cfg.mm_columns t4

end DT

/-! ### Training stage (`src/components/model_trainer.py`). -/

structure ClassificationMetricArtifact where
  f1_score : ℚ
  precision_score : ℚ
  recall_score : ℚ
deriving DecidableEq, Repr

structure ModelTrainerArtifact where
  trained_model_file_path : String
  metric_artifact : ClassificationMetricArtifact
deriving DecidableEq, Repr

structure ModelTrainerConfigO where
  expected_accuracy : ℚ
  trained_model_file_path : String

/-- A fitted classifier: transformed feature columns to predicted labels. -/
abbrev Predictor := Matrix → List ℚ

/-- The `RandomForestClassifier` fit, treated as an external oracle from
(feature columns, target) to a fitted predictor. -/
abbrev Fitter := Matrix → List ℚ → Predictor

/-- `train[:, :-1]`: all columns but the last (the arrays are column-major). -/
def featureCols (arr : Matrix) : Matrix := arr.dropLast

/-- `train[:, -1]`: the last column. -/
def lastCol (arr : Matrix) : List ℚ := (arr.getLast?).getD []

namespace MT

/-- `ModelTrainer.get_model_object_and_report` (lines 28-73): positional
feature/target split, fit on the train slices, weighted F1/precision/recall on
the held-out test array. -/
def get_model_object_and_report (fitModel : Fitter) (train test : Matrix) :
    Predictor × ClassificationMetricArtifact :=
  let x_train := featureCols train
  let y_train := lastCol train
  let x_test := featureCols test
  let y_test := lastCol test
  let model := fitModel x_train y_train
  let y_pred := model x_test
  ⟨model,
   ⟨f1_weighted y_test y_pred, precision_weighted y_test y_pred,
    recall_weighted y_test y_pred⟩⟩

/-- The recomputed training-set accuracy of line 100:
`accuracy_score(train_arr[:, -1], model.predict(train_arr[:, :-1]))`. -/
def train_accuracy (fitModel : Fitter) (train : Matrix) : ℚ :=
  accuracy_score (lastCol train) (fitModel (featureCols train) (lastCol train) (featureCols train))

/-- `ModelTrainer.initiate_model_trainer` (lines 75-120).  Returns the list of
paths written by `save_object` alongside the result: when the recomputed
training accuracy is below `expected_accuracy` the stage raises (wrapped
`Exception("No model found ...")`) and nothing is persisted; otherwise the
bundle is saved at `trained_model_file_path` and the artifact carries the
held-out metrics. -/
def initiate_model_trainer (cfg : ModelTrainerConfigO) (fitModel : Fitter)
    (train_arr test_arr : Matrix) :
    List String × Except PyErr ModelTrainerArtifact :=
  let mr := get_model_object_and_report fitModel train_arr test_arr
  let ta := accuracy_score (lastCol train_arr) (mr.1 (featureCols train_arr))
  if ta < cfg.expected_accuracy then
    ([], .error (.wrapped (.raisedMsg "No model found with accuracy above the expected threshold")))
  else
    ([cfg.trained_model_file_path], .ok ⟨cfg.trained_model_file_path, mr.2⟩)

end MT

/-! ### Evaluation stage (`src/components/model_evaluation.py`). -/

structure EvaluateModelResponse where
  trained_model_f1_score : ℚ
  best_model_f1_score : ℚ
  is_model_accepted : Bool
  difference : ℚ
deriving DecidableEq, Repr

namespace ME

/-- The feature re-derivation of `evaluate_model` (lines 99-113): read the
test CSV, split off the target, apply steps 1-4, then the persisted fitted
transformer (no re-fitting).  Returns the target series and the transformed
feature matrix. -/
def rederive (target : String) (sqrtFn : ℚ → ℚ) (params : ScalerParams)
    (test_df : Frame) : Except PyErr (List ℚ × Matrix) :=
  match dropTargetAndGet target test_df with
  | .error e => .error e
  | .ok p =>
  match evalSteps p.1 with
  | .error e => .error e
  | .ok x4 =>
  match transformWith sqrtFn params x4 with
  | .error e => .error e
  | .ok xt => .ok (p.2, xt)

/-- `ModelEvaluation.evaluate_model` (lines 92-141).  `best_model` is the
baseline fetched by `get_best_model` (`none` when the model store has no
baseline — not an error).  When present, the baseline is scored with
`f1_score(y, y_hat)` — sklearn's default binary F1 — on the re-derived
features; the trained model's score is the weighted F1 carried in the trainer
artifact.  Lines 130-135 build the response: the effective baseline score
defaults to 0, acceptance is a strict comparison, the difference is the exact
subtraction. -/
def evaluate_model (target : String) (sqrtFn : ℚ → ℚ) (params : ScalerParams)
    (trained_model_f1_score : ℚ) (best_model : Option Predictor)
    (test_df : Frame) : Except PyErr EvaluateModelResponse :=
  match rederive target sqrtFn params test_df with
  | .error e => .error (.wrapped e)
  | .ok p =>
    let best_model_f1_score : Option ℚ :=
      match best_model with
      | some m => some (f1_binary p.1 (m p.2))
      | none => none
    let temp_best_model_f1_score := best_model_f1_score.getD 0
    .ok { trained_model_f1_score := trained_model_f1_score,
          best_model_f1_score := temp_best_model_f1_score,
          is_model_accepted := decide (trained_model_f1_score > temp_best_model_f1_score),
          difference := trained_model_f1_score - temp_best_model_f1_score }

end ME

/-! ### Ingestion stage (`src/components/data_ingestion.py`) and data access
(`src/data_access/proj1_data.py`). -/

/-- One raw MongoDB document: key/value pairs. -/
abbrev Record := List (String × Value)

/-- `pd.DataFrame(data)`: columns in order of first appearance across the
records; a record missing a key contributes NaN.  Zero records give an empty
frame with no columns. -/
def framify (records : List Record) : Frame :=
  ((records.flatMap (fun r => r.map Prod.fst)).dedup).map
    (fun n => (n, records.map (fun r => ((r.find? (fun kv => kv.1 == n)).map Prod.snd).getD .nan)))

/-- `df.replace({"na": np.nan})`. -/
def replaceNa (f : Frame) : Frame :=
  f.map (fun c => (c.1, c.2.map (fun v => if v == Value.str "na" then Value.nan else v)))

namespace DI

/-- `Proj1Data.export_collection_as_dataframe` (lines 25-60): fetch all
records, drop the Mongo `_id` column when present, normalize the `"na"`
sentinel.  Zero records are not checked: the empty frame is returned without
error. -/
def export_collection_as_dataframe (records : List Record) : Except PyErr Frame :=
  let df := framify records
  let df1 := if hasCol df "_id" then dropCol df "_id" else df
  .ok (replaceNa df1)

/-- `DataIngestion.export_data_into_feature_store` (lines 23-41): writes the
feature-store CSV *before* dropping the `id` column, then returns the frame
with `id` dropped.  First component: the persisted feature-store snapshot;
second: the frame handed to the splitter. -/
def export_data_into_feature_store (records : List Record) :
    Except PyErr (Frame × Frame) :=
  match export_collection_as_dataframe records with
  | .error e => .error (.wrapped e)
  | .ok dataframe =>
    let featureStore := dataframe
    let dataframe1 := if hasCol dataframe "id" then dropCol dataframe "id" else dataframe
    .ok (featureStore, dataframe1)

/-- The seeded shuffled index split chosen by `train_test_split(...,
random_state=22, shuffle=True)` for a given row count, as an oracle. -/
abbrev SplitChooser := Nat → List Nat × List Nat

/-- Keep the rows at the given indices, in the given order. -/
def restrictRows (f : Frame) (idx : List Nat) : Frame :=
  f.map (fun c => (c.1, idx.filterMap (fun i => c.2.get? i)))

/-- `sklearn.model_selection.train_test_split` on a frame.  Modelled from the
library's documented behavior: it raises `ValueError` when there are zero
samples to split; otherwise it partitions the rows by the seeded shuffle. -/
def train_test_split (chooser : SplitChooser) (f : Frame) :
    Except PyErr (Frame × Frame) :=
  if nrows f == 0 then .error (.valueError "resulting train set will be empty")
  else
    let idx := chooser (nrows f)
    .ok (restrictRows f idx.1, restrictRows f idx.2)

/-- `DataIngestion.split_data_as_train_test` (lines 43-57): split, then write
the two CSVs; any library error is wrapped. -/
def split_data_as_train_test (chooser : SplitChooser) (f : Frame) :
    Except PyErr (Frame × Frame) :=
  match train_test_split chooser f with
  | .error e => .error (.wrapped e)
  | .ok p => .ok p

structure DataIngestionArtifact where
  trained_file_path : String
  test_file_path : String
deriving DecidableEq, Repr

/-- Everything observable about one ingestion run: which files were written
with which frame contents, whether the splitter was reached, and the
result. -/
structure IngestionRun where
  featureStore : Option Frame
  trainCsv : Option Frame
  testCsv : Option Frame
  splitInvoked : Bool
  result : Except PyErr DataIngestionArtifact
deriving DecidableEq, Repr

/-- `DataIngestion.initiate_data_ingestion` (lines 59-71). -/
def initiate_data_ingestion (chooser : SplitChooser)
    (training_file_path testing_file_path : String) (records : List Record) :
    IngestionRun :=
  match export_data_into_feature_store records with
  | .error e =>
      ⟨none, none, none, false, .error (.wrapped e)⟩
  | .ok p =>
      match split_data_as_train_test chooser p.2 with
      | .error e =>
          ⟨some p.1, none, none, true, .error (.wrapped e)⟩
      | .ok q =>
          ⟨some p.1, some q.1, some q.2, true,
           .ok ⟨training_file_path, testing_file_path⟩⟩

end DI

/-! ### Orchestrator (`src/pipline/training_pipeline.py`). -/

structure ModelEvaluationArtifact where
  is_model_accepted : Bool
  s3_model_path : String
  trained_model_path : String
  changed_accuracy : ℚ
deriving DecidableEq, Repr

structure ModelPusherArtifact where
  bucket_name : String
  s3_model_path : String
deriving DecidableEq, Repr

/-- The six stage invocations of `TrainPipeline.run_pipeline`, as oracles:
each field is the `initiate_*` call of the corresponding component (whose own
handler already wrapped internal failures). -/
structure StageOracles where
  ingest : Except PyErr DI.DataIngestionArtifact
  validate : DI.DataIngestionArtifact → Except PyErr DataValidationArtifact
  transform : DI.DataIngestionArtifact → DataValidationArtifact →
      Except PyErr DataTransformationOutput
  train : DataTransformationOutput → Except PyErr ModelTrainerArtifact
  evaluate : DI.DataIngestionArtifact → DataTransformationOutput →
      ModelTrainerArtifact → Except PyErr ModelEvaluationArtifact
  push : ModelEvaluationArtifact → Except PyErr ModelPusherArtifact

namespace TP

def pipelineStages : List String :=
  ["ingestion", "validation", "transformation", "training", "evaluation", "promotion"]

/-- `TrainPipeline.run_pipeline` (lines 147-185), instrumented with the list
of stages it invokes, in order.  Each `start_*` helper wraps a stage failure
once (its own `except`), and `run_pipeline`'s `except` wraps once more; there
is no check of `validation_status` between validation and transformation, and
promotion runs exactly when `is_model_accepted` is true.  On success the
method returns `None`. -/
def run_pipeline (st : StageOracles) : List String × Except PyErr Unit :=
  match st.ingest with
  | .error e => (["ingestion"], .error (.wrapped (.wrapped e)))
  | .ok ia =>
  match st.validate ia with
  | .error e => (["ingestion", "validation"], .error (.wrapped (.wrapped e)))
  | .ok va =>
  match st.transform ia va with
  | .error e =>
      (["ingestion", "validation", "transformation"], .error (.wrapped (.wrapped e)))
  | .ok ta =>
  match st.train ta with
  | .error e =>
      (["ingestion", "validation", "transformation", "training"],
       .error (.wrapped (.wrapped e)))
  | .ok ma =>
  match st.evaluate ia ta ma with
  | .error e =>
      (["ingestion", "validation", "transformation", "training", "evaluation"],
       .error (.wrapped (.wrapped e)))
  | .ok ea =>
  if ea.is_model_accepted then
    match st.push ea with
    | .error e => (pipelineStages, .error (.wrapped (.wrapped e)))
    | .ok _ => (pipelineStages, .ok ())
  else
    (["ingestion", "validation", "transformation", "training", "evaluation"], .ok ())

end TP

/-! ### Concrete fixtures used to evaluate the stage functions on closed
inputs. -/

def evalFrameA : Frame :=
  [("Response", [.num 0, .num 1]),
   ("Gender", [.str "Male", .str "Female"]),
   ("Age", [.num 10, .num 20])]

def scalerA : ScalerParams := ⟨[("Age", 15, 25)], []⟩

def evalFrameB : Frame :=
  [("Response", [.num 0, .num 0, .num 1]),
   ("Gender", [.str "Male", .str "Male", .str "Female"]),
   ("Age", [.num 1, .num 2, .num 3])]

def scalerB : ScalerParams := ⟨[("Age", 2, 1)], []⟩

/-- A baseline predictor that predicts label 0 for every row. -/
def predictorZero : Predictor := fun _ => [0, 0, 0]

def cfgT : SchemaCfg := ⟨"Response", "id", ["Age"], ["Vintage"]⟩

def trainT : Frame :=
  [("Response", [.num 0, .num 1]),
   ("Gender", [.str "Male", .str "Female"]),
   ("Age", [.num 10, .num 20]),
   ("Vintage", [.num 1, .num 3])]

def testT1 : Frame :=
  [("Response", [.num 1]),
   ("Gender", [.str "Male"]),
   ("Age", [.num 30]),
   ("Vintage", [.num 2])]

def testT2 : Frame :=
  [("Response", [.num 0]),
   ("Gender", [.str "Female"]),
   ("Age", [.num 0]),
   ("Vintage", [.num 5])]

def vaOk : DataValidationArtifact := ⟨true, "", "report.json"⟩

def vaFail : DataValidationArtifact :=
  ⟨false, "Columns are missing in training dataframe. ", "report.json"⟩

/-- An identity resampler (a degenerate `fit_resample`). -/
def idResample : Resampler := fun m y => (m, y)

def cfgTrain : ModelTrainerConfigO := ⟨1/2, "model.pkl"⟩

def trainM : Matrix := [[0, 1], [0, 1]]

def testM : Matrix := [[0, 1], [0, 1]]

/-- A fit oracle whose fitted model predicts the first feature column. -/
def fitterGood : Fitter := fun _ _ => fun cols => (cols.head?).getD []

/-- A fit oracle whose fitted model predicts the constant 5. -/
def fitterBad : Fitter := fun _ _ => fun cols => ((cols.head?).getD []).map (fun _ => (5 : ℚ))

def iaA : DI.DataIngestionArtifact := ⟨"train.csv", "test.csv"⟩

def dtOutA : DataTransformationOutput := ⟨⟨[], []⟩, [[0]], [[0]]⟩

def mtaA : ModelTrainerArtifact := ⟨"model.pkl", ⟨1, 1, 1⟩⟩

def meaAccepted : ModelEvaluationArtifact := ⟨true, "s3/model.pkl", "model.pkl", 1/2⟩

/-- Stage oracles for a run whose validation artifact has
`validation_status = false`, with the transformation slot wired to the real
transformation component. -/
def stGate : StageOracles :=
  { ingest := .ok iaA,
    validate := fun _ => .ok vaFail,
    transform := fun _ va => DT.initiate_data_transformation cfgT id idResample va trainT testT1,
    train := fun _ => .error (.raisedMsg "unreached"),
    evaluate := fun _ _ _ => .error (.raisedMsg "unreached"),
    push := fun _ => .error (.raisedMsg "unreached") }

/-- Stage oracles for a run where every stage succeeds, the evaluation accepts
the model, and the promotion upload fails. -/
def stPush : StageOracles :=
  { ingest := .ok iaA,
    validate := fun _ => .ok vaOk,
    transform := fun _ _ => .ok dtOutA,
    train := fun _ => .ok mtaA,
    evaluate := fun _ _ _ => .ok meaAccepted,
    push := fun _ => .error (.wrapped (.raisedMsg "upload failed")) }

/-- A concrete seeded shuffle: the last row goes to the test side. -/
def chooserHalf : DI.SplitChooser := fun n => (List.range (n - 1), [n - 1])

def recordsId : List Record :=
  [[("id", .num 1), ("Gender", .str "Male"), ("Response", .num 0)],
   [("id", .num 2), ("Gender", .str "Female"), ("Response", .num 1)]]

/-- `export_collection_as_dataframe recordsId` evaluates to this frame. -/
def dfIdLit : Frame :=
  [("id", [.num 1, .num 2]),
   ("Gender", [.str "Male", .str "Female"]),
   ("Response", [.num 0, .num 1])]

def frameWithId : Frame := [("Gender", [.str "Male"]), ("id", [.num 7])]

def fW7 : Frame := [("Gender", [.str "Female"]), ("Age", [.num 4])]

end VIP

namespace VIP

/-- C2.  The validation stage can never return a `DataValidationArtifact` at
all: its very first check reads the nonexistent attribute `_schema_config`
(`__init__` sets `schema_config`), so every run raises a wrapped
`AttributeError` — for any schema and any train/test frames, including frames
that match the schema exactly.  (Had the attribute existed, the first append to
— or the final length check of — the never-initialized `validation_error_msg`
would raise `UnboundLocalError`, and the appended clauses are fixed sentences
that never name the missing columns.) -/
theorem validation_always_raises (sc : SchemaConfig) (reportPath : String)
    (train_df test_df : Frame) :
    initiate_data_validation sc reportPath train_df test_df =
      .error (.wrapped (.wrapped (.attributeError "_schema_config"))) := rfl

/-! ### Helper lemmas about the frame operations. -/

theorem getCol_isSome_of_hasCol (f : Frame) (n : String) (h : hasCol f n = true) :
    ∃ vs, getCol f n = some vs := by
  induction f with
  | nil => simp [hasCol] at h
  | cons c t ih =>
      cases hc : (c.1 == n) with
      | true => exact ⟨c.2, by simp [getCol, List.find?, hc]⟩
      | false =>
          have h' : hasCol t n = true := by simpa [hasCol, hc] using h
          obtain ⟨vs, hvs⟩ := ih h'
          exact ⟨vs, by simpa [getCol, List.find?, hc] using hvs⟩

theorem hasCol_setCol (f : Frame) (n m : String) (vs : List Value) :
    hasCol (setCol f n vs) m = hasCol f m := by
  induction f with
  | nil => rfl
  | cons c t ih =>
      simp only [hasCol, setCol, List.map_cons, List.any_cons] at ih ⊢
      rw [ih]

theorem hasCol_dropCol_self (f : Frame) (n : String) :
    hasCol (dropCol f n) n = false := by
  induction f with
  | nil => rfl
  | cons c t ih =>
      cases hc : (c.1 == n) with
      | true =>
          have hstep : dropCol (c :: t) n = dropCol t n := by
            simp [dropCol, List.filter_cons, bne, hc]
          rw [hstep]; exact ih
      | false =>
          have hstep : dropCol (c :: t) n = c :: dropCol t n := by
            simp [dropCol, List.filter_cons, bne, hc]
          rw [hstep]
          simpa [hasCol, hc] using ih

theorem hasCol_restrictRows (f : Frame) (idx : List Nat) (n : String) :
    hasCol (DI.restrictRows f idx) n = hasCol f n := by
  induction f with
  | nil => rfl
  | cons c t ih =>
      simp [hasCol, DI.restrictRows] at ih ⊢
      rw [ih]

/-- The two gender-encoding methods agree on every frame that has the
`Gender` column. -/
theorem map_gender_agree (f : Frame) (hg : hasCol f "Gender" = true) :
    DT.map_gender_column f = ME.map_gender_column f := by
  unfold DT.map_gender_column ME.map_gender_column
  rw [if_pos hg]
  obtain ⟨vs, hvs⟩ := getCol_isSome_of_hasCol f "Gender" hg
  rw [hvs]

/-- The evaluation gender encoding does not change the set of column names. -/
theorem hasCol_of_map_gender (f g : Frame) (n : String)
    (h : ME.map_gender_column f = .ok g) : hasCol g n = hasCol f n := by
  unfold ME.map_gender_column at h
  cases hvs : getCol f "Gender" with
  | none => simp [hvs] at h
  | some vs =>
      simp only [hvs] at h
      cases hm : mapMOpt valToInt (vs.map map_gender_val) with
      | none => simp [hm] at h
      | some ivs =>
          simp only [hm, Except.ok.injEq] at h
          rw [← h]
          exact hasCol_setCol f "Gender" n ivs

/-- The fitted transformer persisted by a successful transformation run is
exactly the train-side fit `DT.trainFit`. -/
theorem dt_ok_params (cfg : SchemaCfg) (sqrtFn : ℚ → ℚ) (resample : Resampler)
    (va : DataValidationArtifact) (train_df test_df : Frame)
    (out : DataTransformationOutput)
    (h : DT.initiate_data_transformation cfg sqrtFn resample va train_df test_df = .ok out) :
    DT.trainFit cfg train_df = .ok out.params := by
  unfold DT.initiate_data_transformation at h
  unfold DT.trainFit
  cases hva : va.validation_status with
  | false => simp [hva] at h
  | true =>
  simp only [hva, Bool.not_true, Bool.false_eq_true, if_false] at h
  cases h1 : dropTargetAndGet cfg.target_column train_df with
  | error e => simp [h1] at h
  | ok ptr =>
  simp only [h1] at h ⊢
  cases h2 : dropTargetAndGet cfg.target_column test_df with
  | error e => simp [h2] at h
  | ok pte =>
  simp only [h2] at h
  cases h3 : DT.map_gender_column ptr.1 with
  | error e => simp [h3] at h
  | ok t1 =>
  simp only [h3] at h ⊢
  cases h4 : DT.map_gender_column pte.1 with
  | error e => simp [h4] at h
  | ok s1 =>
  simp only [h4] at h
  cases h5 : rename_columns (create_dummy_columns (DT.drop_id_column cfg.drop_columns t1)) with
  | error e => simp [h5] at h
  | ok t4 =>
  simp only [h5] at h ⊢
  cases h6 : rename_columns (create_dummy_columns (DT.drop_id_column cfg.drop_columns s1)) with
  | error e => simp [h6] at h
  | ok s4 =>
  simp only [h6] at h
  cases h7 : fitScaler cfg.num_features cfg.mm_columns t4 with
  | error e => simp [h7] at h
  | ok params =>
  simp only [h7] at h
  cases h8 : transformWith sqrtFn params t4 with
  | error e => simp [h8] at h
  | ok tra =>
  simp only [h8] at h
  cases h9 : transformWith sqrtFn params s4 with
  | error e => simp [h9] at h
  | ok tea =>
  simp only [h9, Except.ok.injEq] at h
  rw [← h]

/-- The column names of both split outputs agree with the input frame's. -/
theorem split_preserves_cols (chooser : DI.SplitChooser) (f : Frame)
    (q : Frame × Frame) (n : String)
    (h : DI.split_data_as_train_test chooser f = .ok q) :
    hasCol q.1 n = hasCol f n ∧ hasCol q.2 n = hasCol f n := by
  unfold DI.split_data_as_train_test DI.train_test_split at h
  cases hz : (nrows f == 0) with
  | true => simp [hz] at h
  | false =>
      simp only [hz, Bool.false_eq_true, if_false, Except.ok.injEq] at h
      rw [← h]
      exact ⟨hasCol_restrictRows f _ n, hasCol_restrictRows f _ n⟩

/-! ### Claim theorems.

Batteries marks `Rat.add`/`Rat.sub`/`Rat.mul`/`Rat.inv` `@[irreducible]`,
which blocks `decide`-style evaluation of the concrete runs below; restore the
default reducibility locally so closed computations over ℚ reduce. -/

attribute [local semireducible] Rat.add Rat.sub Rat.mul Rat.inv

set_option maxRecDepth 1000000

/-- C1 (amended).  For every successful evaluation run, the response satisfies
`accepted = trainedF1 > effectiveBaselineF1` and
`delta = trainedF1 - effectiveBaselineF1`, where the effective baseline score
stored in the response is 0 when no baseline is present; consequently with no
baseline the trained model is accepted iff its F1 is strictly positive (not
"always", since a trained F1 of exactly 0 fails the strict comparison). -/
theorem evaluation_acceptance_rule (target : String) (sqrtFn : ℚ → ℚ)
    (params : ScalerParams) (tf1 : ℚ) (bm : Option Predictor) (test_df : Frame)
    (r : EvaluateModelResponse)
    (h : ME.evaluate_model target sqrtFn params tf1 bm test_df = .ok r) :
    r.trained_model_f1_score = tf1
    ∧ (r.is_model_accepted = true ↔ r.best_model_f1_score < tf1)
    ∧ r.difference = tf1 - r.best_model_f1_score
    ∧ (bm = none → r.best_model_f1_score = 0)
    ∧ (bm = none → (r.is_model_accepted = true ↔ 0 < tf1)) := by
  unfold ME.evaluate_model at h
  cases hr : ME.rederive target sqrtFn params test_df with
  | error e => simp [hr] at h
  | ok p =>
      simp only [hr, Except.ok.injEq] at h
      subst h
      cases bm with
      | none => simp [decide_eq_true_eq]
      | some m => simp [decide_eq_true_eq]

/-- C1 counterexample to "always accepted with no baseline": a concrete run
with no baseline and trained F1 = 0 is rejected (`is_model_accepted = false`),
because the code compares with a strict `>` against the defaulted 0. -/
theorem evaluation_no_baseline_zero_f1_rejected :
    ME.evaluate_model "Response" id scalerA 0 none evalFrameA =
      .ok ⟨0, 0, false, 0⟩ := by decide

/-- C1 witness: a concrete no-baseline run with trained F1 = 2 is accepted,
and the acceptance rule instantiates to `0 < 2`. -/
theorem evaluation_acceptance_rule_witness :
    ME.evaluate_model "Response" id scalerA 2 none evalFrameA = .ok ⟨2, 0, true, 2⟩
    ∧ ((EvaluateModelResponse.mk 2 0 true 2).is_model_accepted = true ↔ (0 : ℚ) < 2) :=
  ⟨by decide,
   (evaluation_acceptance_rule "Response" id scalerA 2 none evalFrameA
     ⟨2, 0, true, 2⟩ (by decide)).2.2.2.2 rfl⟩

/-- C8 (amended).  When a baseline model is present, the evaluation stage
scores it on the re-derived test features with sklearn's *default binary* F1
(positive label 1) — `f1_score(y, y_hat)` with no `average` argument — not the
weighted F1 used for the trained model's metric in the trainer artifact. -/
theorem evaluation_baseline_binary_f1 (target : String) (sqrtFn : ℚ → ℚ)
    (params : ScalerParams) (tf1 : ℚ) (m : Predictor) (test_df : Frame)
    (y : List ℚ) (x : Matrix) (r : EvaluateModelResponse)
    (hr : ME.rederive target sqrtFn params test_df = .ok (y, x))
    (h : ME.evaluate_model target sqrtFn params tf1 (some m) test_df = .ok r) :
    r.best_model_f1_score = f1_binary y (m x) := by
  unfold ME.evaluate_model at h
  simp only [hr, Except.ok.injEq] at h
  subst h
  rfl

/-- C8 counterexample: a concrete run where the baseline's stored score is its
binary F1 (0) while the weighted F1 of the very same labels and predictions is
8/15 — the baseline is not scored with the trained model's metric. -/
theorem evaluation_baseline_metric_not_weighted :
    ME.evaluate_model "Response" id scalerB 2 (some predictorZero) evalFrameB =
      .ok ⟨2, 0, true, 2⟩
    ∧ ME.rederive "Response" id scalerB evalFrameB =
        .ok ([0, 0, 1], [[-1, 0, 1], [1, 1, 0]])
    ∧ predictorZero [[-1, 0, 1], [1, 1, 0]] = [0, 0, 0]
    ∧ f1_binary [0, 0, 1] [0, 0, 0] = 0
    ∧ f1_weighted [0, 0, 1] [0, 0, 0] = 8 / 15
    ∧ (0 : ℚ) ≠ 8 / 15 :=
  ⟨by decide, by decide, by decide, by decide, by decide, by decide⟩

/-- C8 witness: the amended theorem applied at the concrete baseline run. -/
theorem evaluation_baseline_binary_f1_witness :
    ME.rederive "Response" id scalerB evalFrameB =
      .ok ([0, 0, 1], [[-1, 0, 1], [1, 1, 0]])
    ∧ (EvaluateModelResponse.mk 2 0 true 2).best_model_f1_score =
        f1_binary [0, 0, 1] (predictorZero [[-1, 0, 1], [1, 1, 0]]) :=
  ⟨by decide,
   evaluation_baseline_binary_f1 "Response" id scalerB 2 predictorZero evalFrameB
     [0, 0, 1] [[-1, 0, 1], [1, 1, 0]] ⟨2, 0, true, 2⟩ (by decide) (by decide)⟩

/-- C4.  The scaling transform's fitted parameters are a function of the train
partition only: two successful transformation runs that differ only in the
test partition persist identical transformer parameters (the scaler is fitted
by `fit_transform` on the derived train frame alone; `transform` on the test
frame never re-fits). -/
theorem transformation_params_train_only (cfg : SchemaCfg) (sqrtFn : ℚ → ℚ)
    (resample : Resampler) (va : DataValidationArtifact) (train_df t1 t2 : Frame)
    (h1 : exceptOk (DT.initiate_data_transformation cfg sqrtFn resample va train_df t1) = true)
    (h2 : exceptOk (DT.initiate_data_transformation cfg sqrtFn resample va train_df t2) = true) :
    (DT.initiate_data_transformation cfg sqrtFn resample va train_df t1).map
        (fun o => o.params)
      = (DT.initiate_data_transformation cfg sqrtFn resample va train_df t2).map
        (fun o => o.params) := by
  cases e1 : DT.initiate_data_transformation cfg sqrtFn resample va train_df t1 with
  | error e => rw [e1] at h1; simp [exceptOk] at h1
  | ok o1 =>
      cases e2 : DT.initiate_data_transformation cfg sqrtFn resample va train_df t2 with
      | error e => rw [e2] at h2; simp [exceptOk] at h2
      | ok o2 =>
          have p1 := dt_ok_params cfg sqrtFn resample va train_df t1 o1 e1
          have p2 := dt_ok_params cfg sqrtFn resample va train_df t2 o2 e2
          rw [p1] at p2
          simp only [Except.ok.injEq] at p2
          simp [Except.map, p2]

/-- C4 witness: two concrete runs over the same train frame and different test
frames both succeed and persist the same fitted parameters. -/
theorem transformation_params_train_only_witness :
    exceptOk (DT.initiate_data_transformation cfgT id idResample vaOk trainT testT1) = true
    ∧ exceptOk (DT.initiate_data_transformation cfgT id idResample vaOk trainT testT2) = true
    ∧ (DT.initiate_data_transformation cfgT id idResample vaOk trainT testT1).map
        (fun o => o.params)
      = (DT.initiate_data_transformation cfgT id idResample vaOk trainT testT2).map
        (fun o => o.params) :=
  ⟨by decide, by decide,
   transformation_params_train_only cfgT id idResample vaOk trainT testT1 testT2
     (by decide) (by decide)⟩

/-- C5.  The trainer recomputes the training-set accuracy; below the
configured `expected_accuracy` the stage raises the "no model found" error and
writes nothing, otherwise it persists the bundle at the configured path and
returns an artifact carrying the held-out test metrics. -/
theorem trainer_threshold_gate (cfg : ModelTrainerConfigO) (fitModel : Fitter)
    (train_arr test_arr : Matrix) :
    (MT.train_accuracy fitModel train_arr < cfg.expected_accuracy →
      MT.initiate_model_trainer cfg fitModel train_arr test_arr =
        ([], .error (.wrapped
          (.raisedMsg "No model found with accuracy above the expected threshold"))))
    ∧ (¬ MT.train_accuracy fitModel train_arr < cfg.expected_accuracy →
      MT.initiate_model_trainer cfg fitModel train_arr test_arr =
        ([cfg.trained_model_file_path],
         .ok ⟨cfg.trained_model_file_path,
              (MT.get_model_object_and_report fitModel train_arr test_arr).2⟩)) := by
  unfold MT.initiate_model_trainer MT.get_model_object_and_report
  dsimp only
  constructor
  · intro h
    unfold MT.train_accuracy at h
    rw [if_pos h]
  · intro h
    unfold MT.train_accuracy at h
    rw [if_neg h]

/-- C5 witness: a sub-threshold fit raises and persists nothing; an
above-threshold fit persists the bundle and returns the test metrics. -/
theorem trainer_threshold_gate_witness :
    (MT.train_accuracy fitterBad trainM < cfgTrain.expected_accuracy
      ∧ MT.initiate_model_trainer cfgTrain fitterBad trainM testM =
          ([], .error (.wrapped
            (.raisedMsg "No model found with accuracy above the expected threshold"))))
    ∧ (¬ MT.train_accuracy fitterGood trainM < cfgTrain.expected_accuracy
      ∧ MT.initiate_model_trainer cfgTrain fitterGood trainM testM =
          ([cfgTrain.trained_model_file_path],
           .ok ⟨cfgTrain.trained_model_file_path,
                (MT.get_model_object_and_report fitterGood trainM testM).2⟩)) :=
  ⟨⟨by decide, (trainer_threshold_gate cfgTrain fitterBad trainM testM).1 (by decide)⟩,
   ⟨by decide, (trainer_threshold_gate cfgTrain fitterGood trainM testM).2 (by decide)⟩⟩

/-- C7 (amended).  Evaluation's re-derivation agrees with the transformation
stage's steps 1-4 on every feature frame that has the `Gender` column and
contains neither the configured drop column nor `_id` — but the two stages'
drop steps target different columns (configured `drop_columns` vs the
hardcoded `"_id"`), and evaluation's gender step is unguarded. -/
theorem derivation_agreement (drop_columns : String) (f : Frame)
    (hg : hasCol f "Gender" = true) (hd : hasCol f drop_columns = false)
    (hi : hasCol f "_id" = false) :
    ME.evalSteps f = DT.transformSteps drop_columns f := by
  unfold ME.evalSteps DT.transformSteps
  rw [← map_gender_agree f hg]
  cases hm : DT.map_gender_column f with
  | error e => simp only [hm]
  | ok d1 =>
      have hME : ME.map_gender_column f = .ok d1 := by
        rw [← map_gender_agree f hg]; exact hm
      have h1 : hasCol d1 "_id" = false := by
        rw [hasCol_of_map_gender f d1 "_id" hME]; exact hi
      have h2 : hasCol d1 drop_columns = false := by
        rw [hasCol_of_map_gender f d1 drop_columns hME]; exact hd
      simp only [hm]
      rw [show ME.drop_id_column d1 = d1 from by simp [ME.drop_id_column, h1],
          show DT.drop_id_column drop_columns d1 = d1 from by
            simp [DT.drop_id_column, h2]]

/-- C7 counterexample: on a test frame that still contains the configured drop
column `id`, evaluation keeps the column while transformation drops it — the
two derivations produce different feature frames. -/
theorem derivation_drop_rule_differs :
    ME.evalSteps frameWithId = .ok [("Gender", [.num 1]), ("id", [.num 7])]
    ∧ DT.transformSteps "id" frameWithId = .ok [("Gender", [.num 1])] :=
  ⟨by decide, by decide⟩

/-- C7 witness: the amended agreement applied at a concrete frame with
`Gender` and with neither `id` nor `_id`. -/
theorem derivation_agreement_witness :
    hasCol fW7 "Gender" = true
    ∧ hasCol fW7 "id" = false
    ∧ hasCol fW7 "_id" = false
    ∧ ME.evalSteps fW7 = DT.transformSteps "id" fW7 :=
  ⟨by decide, by decide, by decide,
   derivation_agreement "id" fW7 (by decide) (by decide) (by decide)⟩

/-- C3 (amended).  When the validation artifact has `passed == false`, the
orchestrator still invokes the Transformation stage (there is no gate check in
`run_pipeline`); Transformation's own precondition raises an exception
carrying the validation message, so Training/Evaluation/Promotion are never
invoked, but the exception escapes `run_pipeline` — the run terminates as a
crash, not as a structured non-crash outcome. -/
theorem gate_failure_invokes_transformation (st : StageOracles)
    (ia : DI.DataIngestionArtifact) (va : DataValidationArtifact)
    (cfg : SchemaCfg) (sqrtFn : ℚ → ℚ) (resample : Resampler)
    (train_df test_df : Frame)
    (hin : st.ingest = .ok ia)
    (hval : st.validate ia = .ok va)
    (hstatus : va.validation_status = false)
    (htr : st.transform ia va =
      DT.initiate_data_transformation cfg sqrtFn resample va train_df test_df) :
    TP.run_pipeline st =
      (["ingestion", "validation", "transformation"],
       .error (.wrapped (.wrapped (.wrapped (.raisedMsg va.message))))) := by
  have hgate : st.transform ia va = .error (.wrapped (.raisedMsg va.message)) := by
    rw [htr]
    unfold DT.initiate_data_transformation
    rw [hstatus]
    rfl
  unfold TP.run_pipeline
  simp only [hin, hval, hgate]

/-- C3 counterexample: a concrete run whose validation artifact has
`passed == false` still shows `"transformation"` in the invocation trace, and
the wrapped validation message escapes `run_pipeline` as an exception. -/
theorem validation_failure_crashes_run :
    TP.run_pipeline stGate =
      (["ingestion", "validation", "transformation"],
       .error (.wrapped (.wrapped (.wrapped
         (.raisedMsg "Columns are missing in training dataframe. "))))) := by decide

/-- C3 witness: the amended theorem applied at the concrete failing-gate
oracles. -/
theorem gate_failure_invokes_transformation_witness :
    stGate.ingest = .ok iaA
    ∧ stGate.validate iaA = .ok vaFail
    ∧ vaFail.validation_status = false
    ∧ TP.run_pipeline stGate =
        (["ingestion", "validation", "transformation"],
         .error (.wrapped (.wrapped (.wrapped (.raisedMsg vaFail.message))))) :=
  ⟨rfl, rfl, rfl,
   gate_failure_invokes_transformation stGate iaA vaFail cfgT id idResample trainT testT1
     rfl rfl rfl rfl⟩

/-- C6 (amended).  When promotion fails after successful training and
evaluation, the wrapped promotion error propagates out of `run_pipeline`: the
run as a whole terminates with an exception rather than reporting success
(the artifacts persisted by the earlier stages are not retracted, but no
success result is returned). -/
theorem promotion_failure_fails_run (st : StageOracles)
    (ia : DI.DataIngestionArtifact) (va : DataValidationArtifact)
    (ta : DataTransformationOutput) (ma : ModelTrainerArtifact)
    (ea : ModelEvaluationArtifact) (e : PyErr)
    (h1 : st.ingest = .ok ia) (h2 : st.validate ia = .ok va)
    (h3 : st.transform ia va = .ok ta) (h4 : st.train ta = .ok ma)
    (h5 : st.evaluate ia ta ma = .ok ea) (hacc : ea.is_model_accepted = true)
    (h6 : st.push ea = .error e) :
    TP.run_pipeline st = (TP.pipelineStages, .error (.wrapped (.wrapped e))) := by
  unfold TP.run_pipeline
  simp [h1, h2, h3, h4, h5, hacc, h6]

/-- C6 counterexample: a concrete run where every stage up to and including
evaluation succeeds and the model is accepted, yet the promotion failure makes
`run_pipeline` end in an error — the run is not reported as successful. -/
theorem promotion_failure_crashes_run :
    TP.run_pipeline stPush =
      (TP.pipelineStages,
       .error (.wrapped (.wrapped (.wrapped (.raisedMsg "upload failed"))))) := by decide

/-- C6 witness: the amended theorem applied at the concrete failing-push
oracles. -/
theorem promotion_failure_fails_run_witness :
    stPush.push meaAccepted = .error (.wrapped (.raisedMsg "upload failed"))
    ∧ TP.run_pipeline stPush =
        (TP.pipelineStages,
         .error (.wrapped (.wrapped (.wrapped (.raisedMsg "upload failed"))))) :=
  ⟨rfl,
   promotion_failure_fails_run stPush iaA vaOk dtOutA mtaA meaAccepted
     (.wrapped (.raisedMsg "upload failed")) rfl rfl rfl rfl rfl rfl rfl⟩

/-- C9 (amended).  With zero records from the source, the data-access layer
returns an empty dataframe without raising, the (empty) feature-store snapshot
is written, and the run proceeds into the split step, which fails with the
split library's wrapped `ValueError`; no ingestion artifact is produced, but
no error is raised at the data-access step. -/
theorem ingestion_zero_records (chooser : DI.SplitChooser)
    (training_file_path testing_file_path : String) :
    DI.initiate_data_ingestion chooser training_file_path testing_file_path [] =
      ⟨some [], none, none, true,
       .error (.wrapped (.wrapped (.valueError "resulting train set will be empty")))⟩ := rfl

/-- C9 counterexample: with zero records the export step succeeds (returning
an empty frame, no `DataAccessError`) and the run does proceed to splitting;
the failure that aborts the run comes from the split library. -/
theorem ingestion_zero_records_reaches_split :
    (DI.initiate_data_ingestion chooserHalf "t.csv" "s.csv" []).splitInvoked = true
    ∧ DI.export_collection_as_dataframe ([] : List Record) = .ok []
    ∧ (DI.initiate_data_ingestion chooserHalf "t.csv" "s.csv" []).result =
        .error (.wrapped (.wrapped (.valueError "resulting train set will be empty"))) :=
  ⟨rfl, rfl, rfl⟩

/-- C10.  For every ingested dataset whose exported frame contains an `id`
column, the feature-store snapshot is written before the `id` drop and so
retains the column, while both split outputs (the train and test CSVs) are
computed from the dropped frame and exclude it. -/
theorem ingestion_id_dropped_after_snapshot (chooser : DI.SplitChooser)
    (training_file_path testing_file_path : String) (records : List Record)
    (df : Frame)
    (hex : DI.export_collection_as_dataframe records = .ok df)
    (hid : hasCol df "id" = true) :
    (DI.initiate_data_ingestion chooser training_file_path testing_file_path
        records).featureStore = some df
    ∧ (∀ tf ∈ (DI.initiate_data_ingestion chooser training_file_path
          testing_file_path records).trainCsv, hasCol tf "id" = false)
    ∧ (∀ tf ∈ (DI.initiate_data_ingestion chooser training_file_path
          testing_file_path records).testCsv, hasCol tf "id" = false) := by
  have hexp : DI.export_data_into_feature_store records = .ok (df, dropCol df "id") := by
    unfold DI.export_data_into_feature_store
    simp [hex, hid]
  unfold DI.initiate_data_ingestion
  simp only [hexp]
  cases hs : DI.split_data_as_train_test chooser (dropCol df "id") with
  | error e =>
      simp only [hs]
      exact ⟨trivial, by simp, by simp⟩
  | ok q =>
      have hq := split_preserves_cols chooser (dropCol df "id") q "id" hs
      simp only [hs]
      refine ⟨trivial, ?_, ?_⟩
      · intro tf htf
        simp only [Option.mem_def, Option.some.injEq] at htf
        rw [← htf, hq.1]
        exact hasCol_dropCol_self df "id"
      · intro tf htf
        simp only [Option.mem_def, Option.some.injEq] at htf
        rw [← htf, hq.2]
        exact hasCol_dropCol_self df "id"

/-- C10 witness: a concrete two-record collection with an `id` column — the
snapshot keeps `id`, both split outputs lack it. -/
theorem ingestion_id_dropped_after_snapshot_witness :
    DI.export_collection_as_dataframe recordsId = .ok dfIdLit
    ∧ hasCol dfIdLit "id" = true
    ∧ ((DI.initiate_data_ingestion chooserHalf "t.csv" "s.csv" recordsId).featureStore
        = some dfIdLit
      ∧ (∀ tf ∈ (DI.initiate_data_ingestion chooserHalf "t.csv" "s.csv"
            recordsId).trainCsv, hasCol tf "id" = false)
      ∧ (∀ tf ∈ (DI.initiate_data_ingestion chooserHalf "t.csv" "s.csv"
            recordsId).testCsv, hasCol tf "id" = false)) :=
  ⟨by decide, by decide,
   ingestion_id_dropped_after_snapshot chooserHalf "t.csv" "s.csv" recordsId dfIdLit
     (by decide) (by decide)⟩

end VIP
